import Mathlib

/-!
Shallow embedding of the vacancy-rss harvesting pipeline
(`src/editx.py`, `src/main.py`, `src/cartiere.py`) and verification of the
specification claims about it.

Modelling conventions:
* HTTP calls are oracles: a page fetch is `Nat → Except Unit Page`, a detail
  fetch is `String → Except Unit δ`; `Except.error ()` is a raised exception
  (`raise_for_status`, network failure, JSON decode failure).
* `random.randint(3, 10)` is a stream `rand : Nat → Nat` of drawn durations
  (the k-th call returns `rand k`); CPython guarantees `3 ≤ rand k ≤ 10`.
* `time.sleep` and each issued request are recorded in an observable trace
  (`EnrichEvent` / the list of requested page indices), so claims about
  "requests issued" and "delays inserted" are statements about the trace.
* Python `dict` with insertion order is an association list
  `List (String × δ)` looked up with `List.lookup`.
* Machine integers do not occur: all counters are small non-negative Python
  `int`s, modelled as `Nat`.
-/

namespace VacancyRss

/-- A parsed wall-clock timestamp, the result of CPython
`datetime.strptime` with format `%Y-%m-%d %H:%M:%S`. -/
structure ParsedTs where
  year : Nat
  month : Nat
  day : Nat
  hour : Nat
  minute : Nat
  second : Nat
  deriving DecidableEq

/-- Split a character list at every occurrence of `sep`, keeping empty
segments, as Python `str.split(sep)` does. -/
def splitChar (sep : Char) : List Char → List (List Char)
  | [] => [[]]
  | a :: rest =>
    match splitChar sep rest with
    | [] => [[a]]
    | g :: gs => if a = sep then [] :: g :: gs else (a :: g) :: gs

/-- Numeric value of a decimal digit character, `none` otherwise. -/
def digitVal? (c : Char) : Option Nat :=
  if c.isDigit then some (c.toNat - 48) else none

/-- Parse a non-empty all-digit character list as a decimal `Nat`. -/
def digitsToNat? : List Char → Option Nat
  | [] => none
  | l => l.foldl (fun acc c => do
      let a ← acc
      let d ← digitVal? c
      pure (a * 10 + d)) (some 0)

/-- `datetime.strptime(s, '%Y-%m-%d %H:%M:%S')`, modelled for zero-padded
fields: the six numeric fields of a string matching the format, with the
range checks CPython applies (month 1–12, day 1–31, hour ≤ 23, minute ≤ 59,
second ≤ 61); `none` is the `ValueError` path. -/
def parseTs (s : String) : Option ParsedTs :=
  match splitChar ' ' s.toList with
  | [d, t] =>
    match splitChar '-' d, splitChar ':' t with
    | [ys, ms, ds], [hs, mins, ss] => do
      let y ← digitsToNat? ys
      let mo ← digitsToNat? ms
      let da ← digitsToNat? ds
      let h ← digitsToNat? hs
      let mi ← digitsToNat? mins
      let se ← digitsToNat? ss
      if 1 ≤ mo ∧ mo ≤ 12 ∧ 1 ≤ da ∧ da ≤ 31 ∧ h ≤ 23 ∧ mi ≤ 59 ∧ se ≤ 61 then
        pure { year := y, month := mo, day := da, hour := h, minute := mi, second := se }
      else none
    | _, _ => none
  | _ => none

/-- `get_native_ts` from `editx.py` (`generate_feed`, lines 95–101). The
source parses the string, calls `ts.replace(tzinfo=timezone.utc)` discarding
the result, and then falls off the end of the function without a `return`
statement, so the success path returns `None` exactly like the `except`
path (which logs a warning and returns `None`). -/
def get_native_ts (ts_string : String) : Option ParsedTs :=
  match parseTs ts_string with
  | some _ts => none
  | none => none

/-! ## editx raw records (the `jobs` dicts of the REST response)

Fields that `generate_feed` accesses with `entry[...]` (raising `KeyError`
when absent) are `Option`-typed; `id` is accessed outside every
`try` block (`editx.py` line 113, and line 74 of `get_posting_details`),
so a record without it would crash both functions — it is typed total. -/

structure RawEntry where
  id : String
  title : Option String := none
  companyLabel : Option String := none
  recruiterFirst : Option String := none
  recruiterLast : Option String := none
  recruiterPosLabel : Option String := none
  recruiterOrgLabel : Option String := none
  locality : Option String := none
  address : Option String := none
  onlineDateValue : Option String := none
  onlineDateLabel : Option String := none
  changedValue : Option String := none
  changedLabel : Option String := none
  skills : Option (List String) := none
  deriving DecidableEq

/-- One editx REST listing response: the `jobs` array plus the
`total`/`count` figures of the payload (`int(raw_data['total'])`,
`int(raw_data['count'])`). Only the first page's figures are read. -/
structure EditxPage where
  jobs : List RawEntry
  total : Nat
  count : Nat
  deriving DecidableEq

/-- The pagination loop of `editx.py:get_data` (lines 52–58): request each
page index in turn, `raise_for_status` re-raising on failure (the outer
`except` logs and re-`raise`s), extending the accumulated jobs otherwise.
Returns the trace of requested page indices alongside the outcome. -/
def editxLoop (fetch : Nat → Except Unit EditxPage) :
    List Nat → List RawEntry → List Nat × Except Unit (List RawEntry)
  | [], acc => ([], .ok acc)
  | i :: rest, acc =>
    match fetch i with
    | .error e => ([i], .error e)
    | .ok p =>
      match editxLoop fetch rest (acc ++ p.jobs) with
      | (tr, res) => (i :: tr, res)

/-- `editx.py:get_data` (lines 32–64), with the configuration-file read and
session setup elided (they carry no claim-relevant behaviour). Requests the
first page; on success, when `total > count`, recomputes the number of
pages as `page_count = total % count` (line 48) and requests pages
`range(1, page_count)`. Any exception is logged and re-raised
(lines 59–61). The caller must have `count > 0`: in the source `count = 0`
with `total > 0` raises `ZeroDivisionError` instead (also re-raised); the
claims only exercise `count = 10`. Returns the list of page indices
requested together with the result. -/
def editxGetData (fetch : Nat → Except Unit EditxPage) :
    List Nat × Except Unit (List RawEntry) :=
  match fetch 0 with
  | .error e => ([0], .error e)
  | .ok p0 =>
    if p0.total > p0.count then
      let page_count := p0.total % p0.count
      match editxLoop fetch (List.range' 1 (page_count - 1)) p0.jobs with
      | (tr, res) => (0 :: tr, res)
    else ([0], .ok p0.jobs)

/-! ## Detail enricher

Requests and sleeps are recorded as an observable event trace. -/

/-- One observable side effect of an enrichment run: a detail request for a
key (an id or a URL), or a `time.sleep(d)` call. -/
inductive EnrichEvent where
  | request (key : String)
  | sleep (d : Nat)
  deriving DecidableEq

/-- Number of sleep events in a trace. -/
def sleepCount (tr : List EnrichEvent) : Nat :=
  tr.countP (fun ev => match ev with | .sleep _ => true | _ => false)

/-- The shared loop body of `editx.py:get_posting_details` (lines 67–90)
and `main.py:get_posting_details` (lines 62–85), which differ only in how
the id is read off a record (`entry['id']` vs `entry['id']['id']`),
abstracted as `idOf`. `fetch` is the detail request
(`sess.get` + `raise_for_status` + `r.json()`), `rand` the
`randint(3, 10)` stream; the `Nat` arguments are the running index `i`,
the record count `post_count`, and the index of the next `rand` draw; the
association list is the `details` dict built so far. A record whose id is
already in `details` is skipped before any request (lines 76–78); after a
successful fetch the result is stored and `time.sleep(randint(3, 10))`
runs exactly when `i < post_count - 1` (lines 83–85); a failing fetch is
logged and the loop continues (lines 86–87), which also skips that sleep. -/
def enrichLoop {α δ : Type} (idOf : α → String) (fetch : String → Except Unit δ)
    (rand : Nat → Nat) :
    List α → Nat → Nat → Nat → List (String × δ) →
    List EnrichEvent × List (String × δ)
  | [], _, _, _, details => ([], details)
  | e :: rest, i, n, k, details =>
    if (details.lookup (idOf e)).isSome then
      enrichLoop idOf fetch rand rest (i + 1) n k details
    else
      match fetch (idOf e) with
      | .error _ =>
        match enrichLoop idOf fetch rand rest (i + 1) n k details with
        | (tr, d) => (.request (idOf e) :: tr, d)
      | .ok det =>
        if i < n - 1 then
          match enrichLoop idOf fetch rand rest (i + 1) n (k + 1)
              (details ++ [(idOf e, det)]) with
          | (tr, d) => (.request (idOf e) :: .sleep (rand k) :: tr, d)
        else
          match enrichLoop idOf fetch rand rest (i + 1) n k
              (details ++ [(idOf e, det)]) with
          | (tr, d) => (.request (idOf e) :: tr, d)

/-- `editx.py:get_posting_details`: the detail payload (`r.json()`) is an
opaque value. Returns the event trace together with the `details` dict. -/
def editxGetPostingDetails {δ : Type} (fetch : String → Except Unit δ)
    (rand : Nat → Nat) (data : List RawEntry) :
    List EnrichEvent × List (String × δ) :=
  enrichLoop (fun e => e.id) fetch rand data 0 data.length 0 []

/-- A VDAB search result (`main.py`): `entry['id']['id']` is read outside
every `try` block (lines 69 and 100), so it is typed total; the fields
`generate_feed` reads inside its `try` are `Option`-typed. -/
structure VdabEntry where
  id : String
  functieNaam : Option String := none
  bedrijfsnaam : Option String := none
  leverancierType : Option String := none
  locatie : Option String := none
  arbeidscircuitLijn : Option String := none
  eerstePublicatieDatum : Option String := none
  laatsteWijzigingDatum : Option String := none
  deriving DecidableEq

/-- `main.py:get_posting_details`, the same loop keyed by
`entry['id']['id']`. -/
def vdabGetPostingDetails {δ : Type} (fetch : String → Except Unit δ)
    (rand : Nat → Nat) (data : List VdabEntry) :
    List EnrichEvent × List (String × δ) :=
  enrichLoop (fun e => e.id) fetch rand data 0 data.length 0 []

/-- The event trace of an enrichment run in which every fetch succeeds
and nothing is skipped: one request per key, with one sleep strictly
between consecutive requests — never before the first or after the last —
the j-th sleep drawing `rand (k + j)`. -/
def expectedEvents (rand : Nat → Nat) (k : Nat) : List String → List EnrichEvent
  | [] => []
  | [e] => [.request e]
  | e :: e2 :: rest =>
    .request e :: .sleep (rand k) :: expectedEvents rand (k + 1) (e2 :: rest)

/-! ## cartiere records and enricher -/

/-- The `address` object of the LD-JSON `JobPosting`'s `jobLocation`; each
sub-field read in `get_address`'s inner `try`/`except KeyError` is
`Option`-typed. -/
structure LdAddress where
  streetAddress : Option String := none
  postalCode : Option String := none
  addressLocality : Option String := none
  addressRegion : Option String := none
  addressCountry : Option String := none
  deriving DecidableEq

/-- The `jobLocation` object of the LD-JSON `JobPosting`. -/
structure JobLocationRec where
  address : Option LdAddress := none
  deriving DecidableEq

/-- The LD-JSON `JobPosting` object extracted by
`cartiere.py:extract_data_from_page`; all fields `generate_feed` reads
with `[...]` are `Option`-typed (a missing key raises `KeyError`).
Timestamps stay opaque strings: no claim inspects their value, and their
ISO-8601 parsing happens inside `extract_data_from_page`, i.e. inside the
fetch oracle. -/
structure CartDetail where
  title : Option String := none
  employmentType : Option String := none
  datePosted : Option String := none
  validThrough : Option String := none
  description : Option String := none
  occupationalCategory : Option String := none
  jobLocation : Option JobLocationRec := none
  deriving DecidableEq

/-- A cartiere reference built by `get_data` from the sitemap (`url`,
`lastModification`), with the detail payload attached in place by
`add_posting_details` (modelled functionally as returning the updated
list). -/
structure CartEntry where
  url : String
  lastModification : String := ""
  details : Option CartDetail := none
  deriving DecidableEq

/-- `cartiere.py:add_posting_details` (lines 234–267): for each entry,
fetch its page and attach the extracted `JobPosting` as
`entry['details']`. `extract_data_from_page` — the fetch oracle here,
covering the HTTP call, the LD-JSON extraction and the
`datetime.fromisoformat` calls — re-raises on failure; the loop's
`except` logs and continues, leaving that entry without `details` and
skipping the sleep, which runs only after a success when
`i < post_count - 1`. There is no duplicate check in this source. -/
def cartEnrich (fetch : String → Except Unit CartDetail) (rand : Nat → Nat) :
    List CartEntry → Nat → Nat → Nat → List EnrichEvent × List CartEntry
  | [], _, _, _ => ([], [])
  | e :: rest, i, n, k =>
    match fetch e.url with
    | .error _ =>
      match cartEnrich fetch rand rest (i + 1) n k with
      | (tr, l) => (.request e.url :: tr, e :: l)
    | .ok d =>
      if i < n - 1 then
        match cartEnrich fetch rand rest (i + 1) n (k + 1) with
        | (tr, l) =>
          (.request e.url :: .sleep (rand k) :: tr, { e with details := some d } :: l)
      else
        match cartEnrich fetch rand rest (i + 1) n k with
        | (tr, l) => (.request e.url :: tr, { e with details := some d } :: l)

/-- `add_posting_details` over a whole reference list. -/
def cartAddPostingDetails (fetch : String → Except Unit CartDetail)
    (rand : Nat → Nat) (data : List CartEntry) : List EnrichEvent × List CartEntry :=
  cartEnrich fetch rand data 0 data.length 0

/-! ## VDAB and cartiere enumerators -/

/-- `PAGE_COUNT` from `main.py` (line 17). -/
def PAGE_COUNT : Nat := 20

/-- The page loop of `main.py:get_date` (lines 41–56) over the given page
indices: request each page (`sess.post` + `raise_for_status` +
`r.json()['resultaten']`, all folded into the oracle); a page with an
empty `resultaten` array breaks out of the loop; any exception lands in
the `except` clause OUTSIDE the loop (line 55), which both stops
pagination and swallows the error, so the collected data is returned —
also when the very first request fails. The inter-page sleep
(lines 53–54) carries no claim-relevant information for this function and
is not traced. -/
def vdabLoop (fetch : Nat → Except Unit (List VdabEntry)) :
    List Nat → List VdabEntry → List VdabEntry
  | [], acc => acc
  | i :: rest, acc =>
    match fetch i with
    | .error _ => acc
    | .ok part =>
      if part.isEmpty then acc
      else vdabLoop fetch rest (acc ++ part)

/-- `main.py:get_date` (lines 32–59): up to `PAGE_COUNT` pages, never
raising (its only `try` has a bare logging `except` and no `raise`). -/
def vdabGetDate (fetch : Nat → Except Unit (List VdabEntry)) : List VdabEntry :=
  vdabLoop fetch (List.range PAGE_COUNT) []

/-- One `<url>` element of the cartiere sitemap. -/
structure SiteUrl where
  loc : String
  lastmod : String
  deriving DecidableEq

/-- `cartiere.py:get_data` (lines 208–231): one single-shot sitemap
request (`r : Except Unit _` is its outcome, covering the HTTP call and
`xmltodict` parsing); on failure the `except` logs and re-raises. On
success the dummy entry `https://www.cartiere.be/jobs/` is skipped and
every other URL becomes a reference carrying its `lastmod`. -/
def cartiereGetData (r : Except Unit (List SiteUrl)) : Except Unit (List CartEntry) :=
  match r with
  | .error e => .error e
  | .ok urls =>
    .ok ((urls.filter (fun u => u.loc != "https://www.cartiere.be/jobs/")).map
      (fun u => { url := u.loc, lastModification := u.lastmod }))

/-! ## Feed assembly

A feedgen `FeedEntry` is a mutable object whose fields are set one call
at a time; `fg.add_entry()` appends it to the feed BEFORE the per-entry
`try` block, so when a rendering step raises, the partially populated
entry stays in the feed. Serialization (`atom_file` / `rss_file`) is the
spec's external feed-emission collaborator and is not modelled: "a feed
file is produced" corresponds to the generator function returning a
`Feed` value rather than propagating an error. -/

/-- Run entry-building steps on a freshly added feed entry: each step
either updates the entry or fails (`none` — the exception caught by the
per-entry `except`), in which case the entry keeps the fields set so far
and remains in the feed. -/
def runSteps {ε : Type} : ε → List (ε → Option ε) → ε
  | fe, [] => fe
  | fe, s :: rest =>
    match s fe with
    | none => fe
    | some fe2 => runSteps fe2 rest

/-- A feedgen entry of the editx Atom feed; every field is `none` until
its setter has run. `published`/`updated` record the argument passed to
the setter — itself an `Option`, since `get_native_ts` may yield `None`. -/
structure EditxFeedEntry where
  title : Option String := none
  entryId : Option String := none
  link : Option String := none
  published : Option (Option ParsedTs) := none
  updated : Option (Option ParsedTs) := none
  content : Option String := none
  categories : Option (List String) := none
  deriving DecidableEq

/-- A feedgen entry of the VDAB RSS feed. -/
structure VdabFeedEntry where
  title : Option String := none
  guid : Option String := none
  link : Option String := none
  published : Option String := none
  updated : Option String := none
  description : Option String := none
  deriving DecidableEq

/-- A feedgen entry of the cartiere Atom feed. -/
structure CartFeedEntry where
  title : Option String := none
  entryId : Option String := none
  link : Option String := none
  published : Option String := none
  updated : Option String := none
  content : Option String := none
  categories : Option (List String) := none
  deriving DecidableEq

/-- A produced feed: metadata plus the ordered entry list. -/
structure Feed (ε : Type) where
  feedTitle : String
  feedId : Option String := none
  entries : List ε
  deriving DecidableEq

/-- `BASE_URL` of `editx.py` (line 14), as used for entry id and link. -/
def editxLink (entryId : String) : String :=
  "https://editx.eu/en/it-jobs/" ++ entryId

/-- The yattag markup body of one editx entry (`editx.py` lines 124–160),
modelled as plain concatenation of its constituent strings — the claims
never inspect the markup, only whether and from what it was built. The
detail subsections sit in individual `try`/`except: pass` blocks that can
never fault the entry, and the detail payload is carried opaquely.
`entry.get('address')` cannot raise; a missing address is interpolated by
the f-string as the text `None`. -/
def editxContent (cl rf rl rp ro loc odl chl : String) (addr : Option String)
    (detail : Option String) : String :=
  "Bedrijf: " ++ cl
    ++ "; Recruiter: " ++ rf ++ " " ++ rl ++ ", " ++ rp ++ " - " ++ ro
    ++ "; Locatie: " ++ loc ++ " ("
    ++ (match addr with | some a => a | none => "None") ++ ")"
    ++ "; Published on " ++ odl ++ ", last change " ++ chl
    ++ (match detail with | some d => d | none => "")

/-- The body of the per-entry `try` in `editx.py:generate_feed`
(lines 114–163), as ordered steps over the freshly added entry. A step
fails exactly where the source raises `KeyError` on a missing field:
title needs `title` and `company.label`; `published`/`updated` need
`onlineDate.value`/`changed.value`; the content block needs the company,
recruiter, locality and date-label fields; the category list needs
`skills` (it is NOT inside an inner `try` in this source). -/
def editxSteps (details : List (String × String)) (e : RawEntry) :
    List (EditxFeedEntry → Option EditxFeedEntry) :=
  [fun fe =>
    match e.title, e.companyLabel with
    | some t, some c => some { fe with title := some (t ++ " (" ++ c ++ ")") }
    | _, _ => none,
  fun fe =>
    some { fe with entryId := some (editxLink e.id), link := some (editxLink e.id) },
  fun fe =>
    match e.onlineDateValue with
    | some v => some { fe with published := some (get_native_ts v) }
    | none => none,
  fun fe =>
    match e.changedValue with
    | some v => some { fe with updated := some (get_native_ts v) }
    | none => none,
  fun fe =>
    match e.companyLabel, e.recruiterFirst, e.recruiterLast, e.recruiterPosLabel,
        e.recruiterOrgLabel, e.locality, e.onlineDateLabel, e.changedLabel with
    | some c, some rf, some rl, some rp, some ro, some loc, some odl, some chl =>
      some { fe with
        content := some (editxContent c rf rl rp ro loc odl chl e.address (details.lookup e.id)) }
    | _, _, _, _, _, _, _, _ => none,
  fun fe =>
    match e.skills with
    | some sk => some { fe with categories := some sk }
    | none => none]

/-- Render one editx listing into its (possibly partially populated)
feed entry. -/
def renderEditx (details : List (String × String)) (e : RawEntry) : EditxFeedEntry :=
  runSteps {} (editxSteps details e)

/-- `editx.py:generate_feed` (lines 93–169): `add_entry` runs for every
listing (and `entry['id']` is read outside the `try`, which our total
`id` field makes safe), so the feed holds exactly one entry per listing,
in order, partial where rendering failed. -/
def editxGenerateFeed (data : List RawEntry) (details : List (String × String)) :
    Feed EditxFeedEntry :=
  { feedTitle := "editx",
    feedId := some "d34c4e59-e6f2-4fce-8ea6-e0da265fbf22",
    entries := data.map (renderEditx details) }

/-- The markup body of one VDAB entry, concatenation-modelled like
`editxContent`. -/
def vdabContent (fn bn lt loc acl : String) (detail : Option String) : String :=
  fn ++ "; Bedrijf: " ++ bn ++ " (" ++ lt ++ ")"
    ++ "; Locatie: " ++ loc ++ "; Type: " ++ acl
    ++ (match detail with | some d => d | none => "")

/-- The per-entry `try` body of `main.py:generate_feed` (lines 101–137). -/
def vdabSteps (details : List (String × String)) (e : VdabEntry) :
    List (VdabFeedEntry → Option VdabFeedEntry) :=
  [fun fe =>
    match e.functieNaam, e.bedrijfsnaam with
    | some fn, some bn => some { fe with title := some (fn ++ " (" ++ bn ++ ")") }
    | _, _ => none,
  fun fe =>
    some { fe with guid := some ("https://www.vdab.be/vindeenjob/vacatures/" ++ e.id),
                   link := some ("https://www.vdab.be/vindeenjob/vacatures/" ++ e.id) },
  fun fe =>
    match e.eerstePublicatieDatum with
    | some d => some { fe with published := some d }
    | none => none,
  fun fe =>
    match e.laatsteWijzigingDatum with
    | some d => some { fe with updated := some d }
    | none => none,
  fun fe =>
    match e.functieNaam, e.bedrijfsnaam, e.leverancierType, e.locatie,
        e.arbeidscircuitLijn with
    | some fn, some bn, some lt, some loc, some acl =>
      some { fe with
        description := some (vdabContent fn bn lt loc acl (details.lookup e.id)) }
    | _, _, _, _, _ => none]

/-- Render one VDAB listing. -/
def renderVdab (details : List (String × String)) (e : VdabEntry) : VdabFeedEntry :=
  runSteps {} (vdabSteps details e)

/-- `main.py:generate_feed` (lines 88–143); this feed sets no `fg.id`. -/
def vdabGenerateFeed (data : List VdabEntry) (details : List (String × String)) :
    Feed VdabFeedEntry :=
  { feedTitle := "VDAB - Zoek een job",
    feedId := none,
    entries := data.map (renderVdab details) }

/-- The fixed field order in which `get_address` collects available
address sub-fields (`cartiere.py` line 277), skipping missing ones
(`except KeyError: pass`). -/
def addressFields (a : LdAddress) : List String :=
  [a.streetAddress, a.postalCode, a.addressLocality, a.addressRegion,
    a.addressCountry].filterMap (fun x => x)

/-- `get_address` from `cartiere.py:generate_feed` (lines 272–287): joins
the collected sub-fields with `", "`; if the path
`details.jobLocation.address` itself cannot be read, the outer `except`
logs a warning and returns `None`. When the address object exists but has
no sub-fields, the function returns `', '.join([])`, the empty string. -/
def get_address (e : CartEntry) : Option String :=
  match e.details with
  | none => none
  | some d =>
    match d.jobLocation with
    | none => none
    | some jl =>
      match jl.address with
      | none => none
      | some a => some (String.intercalate ", " (addressFields a))

/-- The markup body of one cartiere entry (`cartiere.py` lines 316–323),
concatenation-modelled; a missing address is interpolated as the text
`None`. -/
def cartContent (addr : Option String) (dp lm vt desc : String) : String :=
  "Locatie: " ++ (match addr with | some a => a | none => "None")
    ++ "; Published on " ++ dp ++ ", last change " ++ lm
    ++ "; Valid until " ++ vt
    ++ desc

/-- `entry['details']['occupationalCategory'].split(',')`
(`cartiere.py` line 327). -/
def splitCommas (s : String) : List String :=
  (splitChar ',' s.toList).map (fun l => String.mk l)

/-- The per-entry `try` body of `cartiere.py:generate_feed`
(lines 307–330). The category step sits in an inner `try`/`except: pass`
(lines 326–330), so a missing `occupationalCategory` leaves the entry
successful without categories, unlike editx. -/
def cartSteps (e : CartEntry) (d : CartDetail) :
    List (CartFeedEntry → Option CartFeedEntry) :=
  [fun fe =>
    match d.title with
    | some t => some { fe with title := some t }
    | none => none,
  fun fe =>
    some { fe with entryId := some e.url, link := some e.url },
  fun fe =>
    match d.datePosted with
    | some dp => some { fe with published := some dp }
    | none => none,
  fun fe =>
    some { fe with updated := some e.lastModification },
  fun fe =>
    match d.datePosted, d.validThrough, d.description with
    | some dp, some vt, some desc =>
      some { fe with
        content := some (cartContent (get_address e) dp e.lastModification vt desc) }
    | _, _, _ => none,
  fun fe =>
    match d.occupationalCategory with
    | some oc => some { fe with categories := some (splitCommas oc) }
    | none => some fe]

/-- Render one cartiere listing that passed the pre-`add_entry` filters. -/
def renderCart (e : CartEntry) (d : CartDetail) : CartFeedEntry :=
  runSteps {} (cartSteps e d)

/-- The entry loop of `cartiere.py:generate_feed` (lines 298–332):
listings without `details` and `FREELANCE` listings are skipped BEFORE
`add_entry()` and genuinely contribute no entry; but
`entry['details']['employmentType']` is read outside every `try`
(line 302), so a detailed listing without that key raises out of
`generate_feed` and no feed is written at all. Every other per-entry
failure leaves the already-added, partially populated entry in place. -/
def cartEntries : List CartEntry → Except Unit (List CartFeedEntry)
  | [] => .ok []
  | e :: rest =>
    match e.details with
    | none => cartEntries rest
    | some d =>
      match d.employmentType with
      | none => .error ()
      | some et =>
        if et = "FREELANCE" then cartEntries rest
        else
          match cartEntries rest with
          | .error x => .error x
          | .ok l => .ok (renderCart e d :: l)

/-- `cartiere.py:generate_feed` (lines 270–336). -/
def cartiereGenerateFeed (data : List CartEntry) : Except Unit (Feed CartFeedEntry) :=
  match cartEntries data with
  | .error e => .error e
  | .ok l =>
    .ok { feedTitle := "Cartiere",
          feedId := some "9069cb01-9b04-4d24-9a64-8e1fedbf261f",
          entries := l }

/-! ## Per-source orchestration (the `main` function of each script) -/

/-- `editx.py:main` (lines 172–182): a failure raised by `get_data`
propagates, so no feed value is produced; detail payloads are opaque
strings here. -/
def editxMain (fetchPage : Nat → Except Unit EditxPage)
    (fetchDetail : String → Except Unit String) (rand : Nat → Nat)
    (fetch_details : Bool) : Except Unit (Feed EditxFeedEntry) :=
  match editxGetData fetchPage with
  | (_, .error e) => .error e
  | (_, .ok data) =>
    let details :=
      if fetch_details then (editxGetPostingDetails fetchDetail rand data).2 else []
    .ok (editxGenerateFeed data details)

/-- `main.py:main` (lines 146–153): `get_date` never raises, so a feed is
always produced, whatever the upstream did. -/
def vdabMain (fetchPage : Nat → Except Unit (List VdabEntry))
    (fetchDetail : String → Except Unit String) (rand : Nat → Nat) :
    Feed VdabFeedEntry :=
  let data := vdabGetDate fetchPage
  let details := (vdabGetPostingDetails fetchDetail rand data).2
  vdabGenerateFeed data details

/-- `cartiere.py:main` (lines 339–346). -/
def cartiereMain (r : Except Unit (List SiteUrl))
    (fetchDetail : String → Except Unit CartDetail) (rand : Nat → Nat) :
    Except Unit (Feed CartFeedEntry) :=
  match cartiereGetData r with
  | .error e => .error e
  | .ok refs => cartiereGenerateFeed (cartAddPostingDetails fetchDetail rand refs).2

/-! ### Concrete inputs for the pagination claims -/

/-- Upstream answering every page with `total = 25`, `count = 10` and an
empty `jobs` array (contents are irrelevant to the request trace). -/
def c1Fetch : Nat → Except Unit EditxPage :=
  fun _ => .ok { jobs := [], total := 25, count := 10 }

/-- Upstream answering every page with `total = 30`, `count = 10`. -/
def c1FetchThirty : Nat → Except Unit EditxPage :=
  fun _ => .ok { jobs := [], total := 30, count := 10 }

/-! ### Concrete inputs for the error-handling claims (C2, C3) -/

/-- An editx upstream whose every page request fails. -/
def c2wEFetch : Nat → Except Unit EditxPage := fun _ => .error ()

/-- A VDAB upstream whose every page request fails. -/
def c2wVFetch : Nat → Except Unit (List VdabEntry) := fun _ => .error ()

/-- A detail endpoint whose every request fails. -/
def c2wSFetch : String → Except Unit String := fun _ => .error ()

/-- A cartiere detail endpoint whose every request fails. -/
def c2wCFetch : String → Except Unit CartDetail := fun _ => .error ()

/-- An arbitrary in-range `randint` stream. -/
def c2wRand : Nat → Nat := fun _ => 3

/-- An editx upstream where page 0 succeeds (`total = 25`, `count = 10`,
one job) and page 1 fails. -/
def c3EFetch : Nat → Except Unit EditxPage :=
  fun i =>
    if i = 1 then .error ()
    else .ok { jobs := [{ id := "j0" }], total := 25, count := 10 }

/-- The single VDAB result used in the C3 witness run. -/
def c3wV : VdabEntry := { id := "v0" }

/-- A VDAB upstream where page 0 succeeds with one result and every
later page fails. -/
def c3wVFetch : Nat → Except Unit (List VdabEntry) :=
  fun i => if i = 0 then .ok [c3wV] else .error ()

/-- The page contents of the C3 witness run. -/
def c3wParts : Nat → List VdabEntry := fun _ => [c3wV]

/-! ### Concrete inputs for the enricher claims (C4, C5) -/

/-- Two references with distinct ids. -/
def c4Data : List RawEntry := [{ id := "a" }, { id := "b" }]

/-- A detail endpoint failing exactly on id `"a"`. -/
def c4Fetch : String → Except Unit String :=
  fun key => if key = "a" then .error () else .ok "d"

/-- A fixed in-range `randint` stream. -/
def c4Rand : Nat → Nat := fun _ => 5

/-- Three references with distinct ids, all of whose fetches succeed. -/
def c4wData : List RawEntry := [{ id := "a" }, { id := "b" }, { id := "c" }]

/-- An always-succeeding detail endpoint. -/
def c4wFetch : String → Except Unit String := fun _ => .ok "d"

/-- A fixed in-range `randint` stream. -/
def c4wRand : Nat → Nat := fun _ => 7

/-- Two cartiere references. -/
def c4wCData : List CartEntry := [{ url := "u1" }, { url := "u2" }]

/-- An always-succeeding cartiere detail endpoint. -/
def c4wCFetch : String → Except Unit CartDetail := fun _ => .ok {}

/-- A fixed in-range `randint` stream. -/
def c4wCRand : Nat → Nat := fun _ => 4

/-- Five references with distinct ids `p1`–`p5`. -/
def c5Data : List RawEntry :=
  [{ id := "p1" }, { id := "p2" }, { id := "p3" }, { id := "p4" }, { id := "p5" }]

/-- A detail endpoint failing exactly on `"p3"` (item 2, counting from 0)
and answering every other id with itself as payload. -/
def c5Fetch : String → Except Unit String :=
  fun key => if key = "p3" then .error () else .ok key

/-- A fixed in-range `randint` stream. -/
def c5Rand : Nat → Nat := fun _ => 6

/-- Three VDAB references with distinct ids. -/
def c5VData : List VdabEntry := [{ id := "q1" }, { id := "q2" }, { id := "q3" }]

/-- A detail endpoint failing exactly on `"q2"`. -/
def c5VFetch : String → Except Unit String :=
  fun key => if key = "q2" then .error () else .ok key

/-- A fixed in-range `randint` stream. -/
def c5VRand : Nat → Nat := fun _ => 9

/-! ### Concrete inputs for the feed-assembly claims (C6, C7, C10) -/

/-- A listing whose rendering fails at the `updated` step: `changed.value`
is missing, while title, company and `onlineDate.value` are present, so
the partial entry already carries a title, id, link and published
timestamp when the exception hits. -/
def c6Bad : RawEntry :=
  { id := "bad", title := some "T", companyLabel := some "C",
    onlineDateValue := some "2026-01-02 03:04:05" }

/-- A listing whose rendering fully succeeds. -/
def c6Good : RawEntry :=
  { id := "good", title := some "G", companyLabel := some "GC",
    recruiterFirst := some "Rf", recruiterLast := some "Rl",
    recruiterPosLabel := some "Pos", recruiterOrgLabel := some "Org",
    locality := some "Gent", onlineDateValue := some "2026-01-02 03:04:05",
    onlineDateLabel := some "2 Jan", changedValue := some "2026-01-03 04:05:06",
    changedLabel := some "3 Jan", skills := some ["ops"] }

/-- The two-listing input of the C6 counterexample. -/
def c6Data : List RawEntry := [c6Bad, c6Good]

/-- A cartiere detail whose rendering fully succeeds. -/
def c6wGoodDetail : CartDetail :=
  { title := some "GT", employmentType := some "FULL_TIME",
    datePosted := some "2026-01-01", validThrough := some "2026-02-01",
    description := some "desc" }

/-- A fully renderable cartiere listing. -/
def c6wGood : CartEntry :=
  { url := "gu", lastModification := "lm", details := some c6wGoodDetail }

/-- A cartiere detail whose rendering fails at the `published` step
(`datePosted` missing, title present). -/
def c6wBadDetail : CartDetail :=
  { title := some "BT", employmentType := some "PART_TIME" }

/-- A cartiere listing that passes the filters but fails mid-rendering. -/
def c6wBad : CartEntry := { url := "bu", details := some c6wBadDetail }

/-- Reference `a` of the C7 end-to-end scenario: non-empty title. -/
def c7EntryA : RawEntry :=
  { id := "a", title := some "Engineer", companyLabel := some "CompA",
    recruiterFirst := some "Rf", recruiterLast := some "Rl",
    recruiterPosLabel := some "Pos", recruiterOrgLabel := some "Org",
    locality := some "Brussel", onlineDateValue := some "2026-01-02 03:04:05",
    onlineDateLabel := some "2 Jan", changedValue := some "2026-01-03 04:05:06",
    changedLabel := some "3 Jan", skills := some ["lean"] }

/-- Reference `b` of the C7 end-to-end scenario: empty title. -/
def c7EntryB : RawEntry :=
  { id := "b", title := some "", companyLabel := some "CompB",
    recruiterFirst := some "Rf", recruiterLast := some "Rl",
    recruiterPosLabel := some "Pos", recruiterOrgLabel := some "Org",
    locality := some "Brussel", onlineDateValue := some "2026-01-02 03:04:05",
    onlineDateLabel := some "2 Jan", changedValue := some "2026-01-03 04:05:06",
    changedLabel := some "3 Jan", skills := some [] }

/-- Detail fetch succeeded only for `a`. -/
def c7Details : List (String × String) := [("a", "detail-a")]

/-- The C7 scenario input. -/
def c7Data : List RawEntry := [c7EntryA, c7EntryB]

/-- A fully renderable listing for the C10 witness. -/
def c10wEntry : RawEntry :=
  { id := "t1", title := some "T1", companyLabel := some "C1",
    recruiterFirst := some "Rf", recruiterLast := some "Rl",
    recruiterPosLabel := some "Pos", recruiterOrgLabel := some "Org",
    locality := some "Leuven", onlineDateValue := some "2026-05-06 07:08:09",
    onlineDateLabel := some "6 May", changedValue := some "2026-05-07 08:09:10",
    changedLabel := some "7 May", skills := some ["sre"] }

/-! ### Concrete inputs for the address claim (C8) -/

/-- A listing whose LD-JSON address object is present but has none of the
five sub-fields. -/
def c8EmptyAddrEntry : CartEntry :=
  { url := "u", details := some { jobLocation := some { address := some {} } } }

/-- An address with three of the five sub-fields present. -/
def c8wAddr : LdAddress :=
  { streetAddress := some "Main 5", postalCode := some "2000",
    addressLocality := some "Antwerpen" }

/-- A detail carrying `c8wAddr`. -/
def c8wDetail : CartDetail := { jobLocation := some { address := some c8wAddr } }

/-- A listing carrying `c8wDetail`. -/
def c8wEntry : CartEntry := { url := "w", details := some c8wDetail }

end VacancyRss

namespace VacancyRss

/-- C1: with a page size of 10 and upstream `total = 25`, the claim says
exactly 3 page requests (pages 0, 1, 2) are issued and page 3 is never
requested. The code instead computes `page_count = 25 % 10 = 5` and issues
5 requests, pages 0–4, including page 3; with `total = 30` it computes
`30 % 10 = 0` and issues only the page-0 request, silently dropping 20 of
the 30 records although its own log then reports that all data was
fetched — the `%` is a slip for ceiling division, so the claim is right
and the code wrong. -/
theorem c1_pagination_modulo_bug :
    (editxGetData c1Fetch).1 = [0, 1, 2, 3, 4]
    ∧ 3 ∈ (editxGetData c1Fetch).1
    ∧ (editxGetData c1FetchThirty).1 = [0] := by
  refine ⟨rfl, ?_, rfl⟩
  decide

/-! ## Helper lemmas -/

/-- Unfolding `List.lookup` one binding at a time. -/
theorem lookup_cons_eq_if {δ : Type} (k x : String) (v : δ) (as : List (String × δ)) :
    ((k, v) :: as).lookup x = if x = k then some v else as.lookup x := by
  by_cases h : x = k
  · subst h; simp [List.lookup]
  · rw [if_neg h]
    have hb : (x == k) = false := by simpa using h
    simp [List.lookup, hb]

/-- Appending a binding with a different key preserves absence from the
dict. -/
theorem lookup_append_singleton_none {δ : Type} (p : String) (q : δ) (x : String) :
    ∀ acc : List (String × δ), acc.lookup x = none → x ≠ p →
      (acc ++ [(p, q)]).lookup x = none := by
  intro acc
  induction acc with
  | nil =>
    intro _ h2
    have hb : (x == p) = false := by simpa using h2
    simp [List.lookup, hb]
  | cons a as ih =>
    obtain ⟨k, v⟩ := a
    intro h1 h2
    rw [lookup_cons_eq_if] at h1
    rw [List.cons_append, lookup_cons_eq_if]
    by_cases hx : x = k
    · rw [if_pos hx] at h1; exact absurd h1 (by simp)
    · rw [if_neg hx] at h1 ⊢
      exact ih h1 h2

/-- Generic enricher correctness: with pairwise-distinct ids, none of
which is already in the dict, the loop issues a request for every record
and the final dict binds exactly the successfully fetched ids, in input
order; failures are omissions. -/
theorem enrichLoop_spec {α δ : Type} (idOf : α → String)
    (fetch : String → Except Unit δ) (rand : Nat → Nat) :
    ∀ (l : List α) (i n k : Nat) (acc : List (String × δ)),
      (l.map idOf).Nodup →
      (∀ e ∈ l, acc.lookup (idOf e) = none) →
      (enrichLoop idOf fetch rand l i n k acc).2
          = acc ++ l.filterMap (fun e =>
              match fetch (idOf e) with
              | .ok d => some (idOf e, d)
              | .error _ => none)
        ∧ ∀ e ∈ l, EnrichEvent.request (idOf e) ∈ (enrichLoop idOf fetch rand l i n k acc).1 := by
  intro l
  induction l with
  | nil =>
    intro i n k acc _ _
    exact ⟨by simp [enrichLoop], by simp⟩
  | cons e rest ih =>
    intro i n k acc hnd hacc
    have hacc_e : acc.lookup (idOf e) = none := hacc e (by simp)
    rw [List.map_cons] at hnd
    obtain ⟨hnmem, hnd'⟩ := List.nodup_cons.mp hnd
    cases hd : fetch (idOf e) with
    | error u =>
      rcases hrec : enrichLoop idOf fetch rand rest (i + 1) n k acc with ⟨tr, dd⟩
      have hih := ih (i + 1) n k acc hnd' (fun x hx => hacc x (by simp [hx]))
      rw [hrec] at hih
      have hdd : dd = acc ++ rest.filterMap (fun x =>
          match fetch (idOf x) with
          | .ok d => some (idOf x, d)
          | .error _ => none) := by simpa using hih.1
      have hmem : ∀ x ∈ rest, EnrichEvent.request (idOf x) ∈ tr :=
        fun x hx => by simpa using hih.2 x hx
      have heq : enrichLoop idOf fetch rand (e :: rest) i n k acc
          = (.request (idOf e) :: tr, dd) := by
        simp [enrichLoop, hacc_e, hd, hrec]
      rw [heq]
      constructor
      · simp [List.filterMap_cons, hd, hdd]
      · intro x hx
        rcases List.mem_cons.mp hx with hxe | hxr
        · subst hxe; exact List.mem_cons_self _ _
        · exact List.mem_cons_of_mem _ (hmem x hxr)
    | ok d =>
      have hacc' : ∀ x ∈ rest, (acc ++ [(idOf e, d)]).lookup (idOf x) = none := by
        intro x hx
        refine lookup_append_singleton_none (idOf e) d (idOf x) acc
          (hacc x (by simp [hx])) ?_
        intro hcontra
        exact hnmem (hcontra ▸ List.mem_map_of_mem idOf hx)
      by_cases hlt : i < n - 1
      · rcases hrec : enrichLoop idOf fetch rand rest (i + 1) n (k + 1)
            (acc ++ [(idOf e, d)]) with ⟨tr, dd⟩
        have hih := ih (i + 1) n (k + 1) (acc ++ [(idOf e, d)]) hnd' hacc'
        rw [hrec] at hih
        have hdd : dd = (acc ++ [(idOf e, d)]) ++ rest.filterMap (fun x =>
            match fetch (idOf x) with
            | .ok d => some (idOf x, d)
            | .error _ => none) := by simpa using hih.1
        have hmem : ∀ x ∈ rest, EnrichEvent.request (idOf x) ∈ tr :=
          fun x hx => by simpa using hih.2 x hx
        have heq : enrichLoop idOf fetch rand (e :: rest) i n k acc
            = (.request (idOf e) :: .sleep (rand k) :: tr, dd) := by
          simp [enrichLoop, hacc_e, hd, hlt, hrec]
        rw [heq]
        constructor
        · simp [List.filterMap_cons, hd, hdd, List.append_assoc]
        · intro x hx
          rcases List.mem_cons.mp hx with hxe | hxr
          · subst hxe; exact List.mem_cons_self _ _
          · exact List.mem_cons_of_mem _ (List.mem_cons_of_mem _ (hmem x hxr))
      · rcases hrec : enrichLoop idOf fetch rand rest (i + 1) n k
            (acc ++ [(idOf e, d)]) with ⟨tr, dd⟩
        have hih := ih (i + 1) n k (acc ++ [(idOf e, d)]) hnd' hacc'
        rw [hrec] at hih
        have hdd : dd = (acc ++ [(idOf e, d)]) ++ rest.filterMap (fun x =>
            match fetch (idOf x) with
            | .ok d => some (idOf x, d)
            | .error _ => none) := by simpa using hih.1
        have hmem : ∀ x ∈ rest, EnrichEvent.request (idOf x) ∈ tr :=
          fun x hx => by simpa using hih.2 x hx
        have heq : enrichLoop idOf fetch rand (e :: rest) i n k acc
            = (.request (idOf e) :: tr, dd) := by
          simp [enrichLoop, hacc_e, hd, hlt, hrec]
        rw [heq]
        constructor
        · simp [List.filterMap_cons, hd, hdd, List.append_assoc]
        · intro x hx
          rcases List.mem_cons.mp hx with hxe | hxr
          · subst hxe; exact List.mem_cons_self _ _
          · exact List.mem_cons_of_mem _ (hmem x hxr)

/-- The page loop of `main.py:get_date` on an index list whose pages all
succeed with non-empty results until a failing index: it returns the
accumulator plus everything collected before the failure. -/
theorem vdabLoop_partial (fetch : Nat → Except Unit (List VdabEntry))
    (parts : Nat → List VdabEntry) :
    ∀ (l1 : List Nat) (j : Nat) (l2 : List Nat) (acc : List VdabEntry),
      (∀ i ∈ l1, fetch i = .ok (parts i)) →
      (∀ i ∈ l1, parts i ≠ []) →
      fetch j = .error () →
      vdabLoop fetch (l1 ++ j :: l2) acc = acc ++ (l1.map parts).flatten := by
  intro l1
  induction l1 with
  | nil =>
    intro j l2 acc _ _ herr
    simp [vdabLoop, herr]
  | cons a l1' ih =>
    intro j l2 acc hok hne herr
    have ha := hok a (by simp)
    have hne_a := hne a (by simp)
    have hemp : (parts a).isEmpty = false := by
      cases hp : parts a with
      | nil => exact absurd hp hne_a
      | cons x xs => rfl
    rw [List.cons_append]
    simp only [vdabLoop, ha, hemp]
    rw [ih j l2 (acc ++ parts a) (fun i hi => hok i (by simp [hi]))
      (fun i hi => hne i (by simp [hi])) herr]
    simp [List.append_assoc]

/-- The editx page loop re-raises the first page failure it meets. -/
theorem editxLoop_error (fetch : Nat → Except Unit EditxPage) :
    ∀ (l1 : List Nat) (j : Nat) (l2 : List Nat) (acc : List RawEntry),
      (∀ i ∈ l1, ∃ p, fetch i = .ok p) →
      fetch j = .error () →
      (editxLoop fetch (l1 ++ j :: l2) acc).2 = .error () := by
  intro l1
  induction l1 with
  | nil =>
    intro j l2 acc _ herr
    simp [editxLoop, herr]
  | cons a l1' ih =>
    intro j l2 acc hok herr
    obtain ⟨p, hp⟩ := hok a (by simp)
    rcases hrec : editxLoop fetch (l1' ++ j :: l2) (acc ++ p.jobs) with ⟨tr, res⟩
    have := ih j l2 (acc ++ p.jobs) (fun i hi => hok i (by simp [hi])) herr
    rw [hrec] at this
    rw [List.cons_append]
    simp [editxLoop, hp, hrec, this]

/-- Generic enricher trace: when every fetch succeeds, ids are distinct
and nothing is pre-cached, the event trace is exactly the
request/sleep interleaving of `expectedEvents`. The start index must
satisfy `i + l.length = n` (as it does from the top-level entry point,
where `i = 0` and `n = l.length`), since the last record is recognised by
`i < post_count - 1` failing. -/
theorem enrichLoop_trace_allOk {α δ : Type} (idOf : α → String)
    (fetch : String → Except Unit δ) (rand : Nat → Nat) :
    ∀ (l : List α) (i n k : Nat) (acc : List (String × δ)),
      i + l.length = n →
      (l.map idOf).Nodup →
      (∀ e ∈ l, acc.lookup (idOf e) = none) →
      (∀ e ∈ l, ∃ d, fetch (idOf e) = .ok d) →
      (enrichLoop idOf fetch rand l i n k acc).1 = expectedEvents rand k (l.map idOf) := by
  intro l
  induction l with
  | nil =>
    intro i n k acc _ _ _ _
    simp [enrichLoop, expectedEvents]
  | cons e rest ih =>
    intro i n k acc hlen hnd hacc hok
    obtain ⟨d, hd⟩ := hok e (by simp)
    have hacc_e : acc.lookup (idOf e) = none := hacc e (by simp)
    rw [List.map_cons] at hnd
    obtain ⟨hnmem, hnd'⟩ := List.nodup_cons.mp hnd
    have hacc' : ∀ x ∈ rest, (acc ++ [(idOf e, d)]).lookup (idOf x) = none := by
      intro x hx
      refine lookup_append_singleton_none (idOf e) d (idOf x) acc
        (hacc x (by simp [hx])) ?_
      intro hcontra
      exact hnmem (hcontra ▸ List.mem_map_of_mem idOf hx)
    by_cases hre : rest = []
    · subst hre
      have hni : ¬ i < n - 1 := by simp at hlen; omega
      simp [enrichLoop, hacc_e, hd, hni, expectedEvents]
    · have hpos : 0 < rest.length := List.length_pos.mpr hre
      have hlt : i < n - 1 := by simp at hlen; omega
      rcases hrec : enrichLoop idOf fetch rand rest (i + 1) n (k + 1)
          (acc ++ [(idOf e, d)]) with ⟨tr, dd⟩
      have hih := ih (i + 1) n (k + 1) (acc ++ [(idOf e, d)])
        (by simp at hlen ⊢; omega) hnd' hacc'
        (fun x hx => hok x (by simp [hx]))
      rw [hrec] at hih
      simp only at hih
      have heq : enrichLoop idOf fetch rand (e :: rest) i n k acc
          = (.request (idOf e) :: .sleep (rand k) :: tr, dd) := by
        simp [enrichLoop, hacc_e, hd, hlt, hrec]
      rw [heq]
      obtain ⟨r0, rtl, rfl⟩ : ∃ r0 rtl, rest = r0 :: rtl := by
        cases rest with
        | nil => exact absurd rfl hre
        | cons r0 rtl => exact ⟨r0, rtl, rfl⟩
      simp [expectedEvents, hih]

/-- The cartiere enricher trace under all-successful fetches: the same
request/sleep interleaving, keyed by URL. -/
theorem cartEnrich_trace_allOk (fetch : String → Except Unit CartDetail)
    (rand : Nat → Nat) :
    ∀ (l : List CartEntry) (i n k : Nat),
      i + l.length = n →
      (∀ e ∈ l, ∃ d, fetch e.url = .ok d) →
      (cartEnrich fetch rand l i n k).1
        = expectedEvents rand k (l.map (fun e => e.url)) := by
  intro l
  induction l with
  | nil =>
    intro i n k _ _
    simp [cartEnrich, expectedEvents]
  | cons e rest ih =>
    intro i n k hlen hok
    obtain ⟨d, hd⟩ := hok e (by simp)
    by_cases hre : rest = []
    · subst hre
      have hni : ¬ i < n - 1 := by simp at hlen; omega
      simp [cartEnrich, hd, hni, expectedEvents]
    · have hpos : 0 < rest.length := List.length_pos.mpr hre
      have hlt : i < n - 1 := by simp at hlen; omega
      rcases hrec : cartEnrich fetch rand rest (i + 1) n (k + 1) with ⟨tr, ll⟩
      have hih := ih (i + 1) n (k + 1) (by simp at hlen ⊢; omega)
        (fun x hx => hok x (by simp [hx]))
      rw [hrec] at hih
      simp only at hih
      have heq : cartEnrich fetch rand (e :: rest) i n k
          = (.request e.url :: .sleep (rand k) :: tr,
            { e with details := some d } :: ll) := by
        simp [cartEnrich, hd, hlt, hrec]
      rw [heq]
      obtain ⟨r0, rtl, rfl⟩ : ∃ r0 rtl, rest = r0 :: rtl := by
        cases rest with
        | nil => exact absurd rfl hre
        | cons r0 rtl => exact ⟨r0, rtl, rfl⟩
      simp [expectedEvents, hih]

/-- An all-successful run over `m` keys contains exactly `m - 1` sleeps. -/
theorem sleepCount_expectedEvents (rand : Nat → Nat) :
    ∀ (l : List String) (k : Nat),
      sleepCount (expectedEvents rand k l) = l.length - 1 := by
  intro l
  induction l with
  | nil => intro k; simp [expectedEvents, sleepCount]
  | cons e rest ih =>
    intro k
    cases rest with
    | nil => simp [expectedEvents, sleepCount]
    | cons e2 rest' =>
      have := ih (k + 1)
      simp [expectedEvents, sleepCount, List.countP_cons] at this ⊢
      omega

/-- Every sleep of an all-successful run came from the `randint` stream. -/
theorem sleep_mem_expectedEvents (rand : Nat → Nat) :
    ∀ (l : List String) (k d : Nat),
      EnrichEvent.sleep d ∈ expectedEvents rand k l → ∃ j, d = rand j := by
  intro l
  induction l with
  | nil => intro k d h; simp [expectedEvents] at h
  | cons e rest ih =>
    intro k d h
    cases rest with
    | nil => simp [expectedEvents] at h
    | cons e2 rest' =>
      simp [expectedEvents] at h
      rcases h with h | h
      · exact ⟨k, h⟩
      · exact ih (k + 1) d (by simpa [expectedEvents] using h)

/-- A property preserved by every step holds for the final entry,
whether or not some step failed along the way. -/
theorem runSteps_preserves {ε : Type} (P : ε → Prop) :
    ∀ (steps : List (ε → Option ε)) (init : ε),
      P init → (∀ s ∈ steps, ∀ x y, P x → s x = some y → P y) →
      P (runSteps init steps) := by
  intro steps
  induction steps with
  | nil => intro init h _; simpa [runSteps] using h
  | cons s rest ih =>
    intro init h hsteps
    cases hs : s init with
    | none => simpa [runSteps, hs] using h
    | some y =>
      have hy := hsteps s (by simp) init y h hs
      simpa [runSteps, hs] using ih y hy (fun s' hs' => hsteps s' (by simp [hs']))

/-- `get_native_ts` returns `None` on every input: the success path never
executes a `return` statement. -/
theorem get_native_ts_none (s : String) : get_native_ts s = none := by
  unfold get_native_ts
  cases parseTs s <;> rfl

/-- Whatever an editx listing contains, its rendered entry's `published`
and `updated` fields are either never set (rendering failed first) or set
from the `None` that `get_native_ts` always produces. -/
theorem renderEditx_published (details : List (String × String)) (e : RawEntry) :
    ((renderEditx details e).published = none ∨ (renderEditx details e).published = some none)
    ∧ ((renderEditx details e).updated = none ∨ (renderEditx details e).updated = some none) := by
  refine runSteps_preserves
    (fun fe : EditxFeedEntry =>
      (fe.published = none ∨ fe.published = some none)
      ∧ (fe.updated = none ∨ fe.updated = some none))
    (editxSteps details e) {} ⟨Or.inl rfl, Or.inl rfl⟩ ?_
  intro s hs x y hx hxy
  simp only [editxSteps, List.mem_cons, List.mem_singleton, List.not_mem_nil, or_false] at hs
  rcases hs with h | h | h | h | h | h
  · subst h
    cases ht : e.title <;> cases hc : e.companyLabel <;> simp [ht, hc] at hxy
    subst hxy
    simpa using hx
  · subst h
    simp at hxy
    subst hxy
    simpa using hx
  · subst h
    cases hv : e.onlineDateValue <;> simp [hv] at hxy
    subst hxy
    exact ⟨Or.inr (by simp [get_native_ts_none]), by simpa using hx.2⟩
  · subst h
    cases hv : e.changedValue <;> simp [hv] at hxy
    subst hxy
    exact ⟨by simpa using hx.1, Or.inr (by simp [get_native_ts_none])⟩
  · subst h
    cases h1 : e.companyLabel <;> cases h2 : e.recruiterFirst <;> cases h3 : e.recruiterLast
      <;> cases h4 : e.recruiterPosLabel <;> cases h5 : e.recruiterOrgLabel
      <;> cases h6 : e.locality <;> cases h7 : e.onlineDateLabel <;> cases h8 : e.changedLabel
      <;> simp [h1, h2, h3, h4, h5, h6, h7, h8] at hxy
    subst hxy
    simpa using hx
  · subst h
    cases hv : e.skills <;> simp [hv] at hxy
    subst hxy
    simpa using hx

/-- C9: the claim says the timestamp normalizer returns the parsed
timestamp for a string that parses in `%Y-%m-%d %H:%M:%S` format. The
string `"2026-01-02 03:04:05"` does parse, but `get_native_ts` still
returns `None`: its success path never executes a `return` statement (and
discards the result of `ts.replace`), so the function returns `None` for
every input. The spec states the evident intent; the missing `return ts`
is a code bug. -/
theorem c9_parse_result_discarded :
    parseTs "2026-01-02 03:04:05"
      = some { year := 2026, month := 1, day := 2, hour := 3, minute := 4, second := 5 }
    ∧ get_native_ts "2026-01-02 03:04:05" = none := by
  constructor <;> rfl

/-- C2 counterexample: a concrete VDAB run whose first page request
fails, yet `get_date` returns normally — an empty reference list, not a
raised error (its result type in the model has no error channel, because
the source's `except` swallows every exception) — and `main` still
produces a feed, with zero entries. This falsifies the claim's "for
every run ... raises the failure upward ... no feed file is produced". -/
theorem c2_counterexample :
    vdabGetDate c2wVFetch = []
    ∧ vdabMain c2wVFetch c2wSFetch c2wRand
        = { feedTitle := "VDAB - Zoek een job", feedId := none, entries := [] } := by
  constructor <;> rfl

/-- C2 amended: for the editx and cartiere sources a failure of the
first (respectively single-shot) enumeration request does propagate
upward, out of `get_data` and out of `main`, so no feed is produced; the
VDAB source (`main.py:get_date`) instead catches any failure — including
one on page 0 — returns the empty partial list, and its `main` still
produces a (zero-entry) feed file. -/
theorem c2_amended :
    (∀ (fetchPage : Nat → Except Unit EditxPage)
        (fetchDetail : String → Except Unit String) (rand : Nat → Nat) (fd : Bool),
      fetchPage 0 = .error () →
        (editxGetData fetchPage).2 = .error ()
        ∧ editxMain fetchPage fetchDetail rand fd = .error ())
    ∧ (∀ (fetchDetail : String → Except Unit CartDetail) (rand : Nat → Nat),
        cartiereGetData (.error ()) = .error ()
        ∧ cartiereMain (.error ()) fetchDetail rand = .error ())
    ∧ (∀ (vfetch : Nat → Except Unit (List VdabEntry))
        (fetchDetail : String → Except Unit String) (rand : Nat → Nat),
      vfetch 0 = .error () →
        vdabGetDate vfetch = []
        ∧ (vdabMain vfetch fetchDetail rand).entries = []) := by
  refine ⟨?_, ?_, ?_⟩
  · intro fp fdet rand fd h
    have h1 : editxGetData fp = ([0], .error ()) := by
      simp [editxGetData, h]
    exact ⟨by rw [h1], by simp [editxMain, h1]⟩
  · intro fdet rand
    exact ⟨rfl, rfl⟩
  · intro vf fdet rand h
    have hdata : vdabGetDate vf = [] := by
      have hr : List.range PAGE_COUNT = 0 :: List.range' 1 19 := by decide
      rw [vdabGetDate, hr]
      simp [vdabLoop, h]
    refine ⟨hdata, ?_⟩
    simp [vdabMain, hdata, vdabGenerateFeed]

/-- C2 witness: the amended statement instantiated at concrete
always-failing upstreams. -/
theorem c2_amended_witness :
    (editxGetData c2wEFetch).2 = .error ()
    ∧ editxMain c2wEFetch c2wSFetch c2wRand true = .error ()
    ∧ cartiereGetData (.error ()) = .error ()
    ∧ cartiereMain (.error ()) c2wCFetch c2wRand = .error ()
    ∧ vdabGetDate c2wVFetch = []
    ∧ (vdabMain c2wVFetch c2wSFetch c2wRand).entries = [] := by
  obtain ⟨h1, h2⟩ := c2_amended.1 c2wEFetch c2wSFetch c2wRand true rfl
  obtain ⟨h3, h4⟩ := c2_amended.2.1 c2wCFetch c2wRand
  obtain ⟨h5, h6⟩ := c2_amended.2.2 c2wVFetch c2wSFetch c2wRand rfl
  exact ⟨h1, h2, h3, h4, h5, h6⟩

/-- C3 counterexample: a concrete editx run whose page 0 succeeds (with
one job and `total = 25`, `count = 10`) and whose page-1 request fails:
`get_data` re-raises (`editx.py` line 61) instead of returning the
page-0 references, falsifying the claim's "for every run ... does not
raise, and returns exactly the references collected". -/
theorem c3_counterexample :
    c3EFetch 0 = .ok { jobs := [{ id := "j0" }], total := 25, count := 10 }
    ∧ (editxGetData c3EFetch).1 = [0, 1]
    ∧ (editxGetData c3EFetch).2 = .error () := by
  refine ⟨rfl, rfl, rfl⟩

/-- C3 amended: the partial-success behaviour holds for the VDAB
paginator (`main.py:get_date`): when pages `0..k-1` succeed with
non-empty results and page `k` fails, it stops paginating, does not
raise, and returns exactly the references of pages `0..k-1`. The editx
paginator (`editx.py:get_data`) instead re-raises a failure on any
issued later page (all earlier ones having succeeded) and discards the
partial result. -/
theorem c3_amended :
    (∀ (fetch : Nat → Except Unit (List VdabEntry)) (parts : Nat → List VdabEntry)
        (k : Nat),
      1 ≤ k → k < 20 →
      (∀ i, i < k → fetch i = .ok (parts i)) →
      (∀ i, i < k → parts i ≠ []) →
      fetch k = .error () →
      vdabGetDate fetch = ((List.range k).map parts).flatten)
    ∧ (∀ (efetch : Nat → Except Unit EditxPage) (p0 : EditxPage)
        (l1 : List Nat) (j : Nat) (l2 : List Nat),
      efetch 0 = .ok p0 → p0.count < p0.total →
      List.range' 1 (p0.total % p0.count - 1) = l1 ++ j :: l2 →
      (∀ i ∈ l1, ∃ p, efetch i = .ok p) →
      efetch j = .error () →
      (editxGetData efetch).2 = .error ()) := by
  constructor
  · intro fetch parts k hk1 hk2 hok hne herr
    have hsplit : List.range 20 = List.range k ++ (k :: List.range' (k + 1) (19 - k)) := by
      rw [List.range_eq_range' 20, List.range_eq_range' k]
      have happ := List.range'_append 0 k (20 - k) 1
      rw [show 0 + 1 * k = k by omega, show (20 - k) + k = 20 by omega] at happ
      rw [← happ, show 20 - k = (19 - k) + 1 by omega, List.range'_succ]
    rw [vdabGetDate, PAGE_COUNT, hsplit,
      vdabLoop_partial fetch parts (List.range k) k (List.range' (k + 1) (19 - k)) []
        (fun i hi => hok i (List.mem_range.mp hi))
        (fun i hi => hne i (List.mem_range.mp hi)) herr]
    simp
  · intro efetch p0 l1 j l2 h0 htc hdecomp hl1 herr
    have hloop := editxLoop_error efetch l1 j l2 p0.jobs hl1 herr
    rw [← hdecomp] at hloop
    rcases hrec : editxLoop efetch (List.range' 1 (p0.total % p0.count - 1)) p0.jobs
      with ⟨tr, res⟩
    rw [hrec] at hloop
    simp only at hloop
    simp [editxGetData, h0, htc, hrec, hloop]

/-- C3 witness: the amended statement instantiated at a VDAB upstream
failing from page 1 on, and an editx upstream failing at page 1. -/
theorem c3_amended_witness :
    vdabGetDate c3wVFetch = ((List.range 1).map c3wParts).flatten
    ∧ vdabGetDate c3wVFetch = [c3wV]
    ∧ (editxGetData c3EFetch).2 = .error () := by
  have h1 := c3_amended.1 c3wVFetch c3wParts 1 (by omega) (by omega)
    (fun i hi => by
      have : i = 0 := by omega
      subst this; rfl)
    (fun i hi => by
      have : i = 0 := by omega
      subst this
      simp [c3wParts])
    rfl
  have h2 := c3_amended.2 c3EFetch
    { jobs := [{ id := "j0" }], total := 25, count := 10 } [] 1 [2, 3, 4]
    rfl (by decide) rfl (by simp) rfl
  refine ⟨h1, ?_, h2⟩
  rw [h1]
  decide

/-- C4 counterexample: two references where the first detail fetch
fails. The sleep sits inside the `try` after the successful store, so
the failing item's trailing delay is skipped: the run issues both
requests back to back with zero delays, not N−1 = 1, falsifying the
claim's "for every input reference sequence ... exactly N−1 delays". -/
theorem c4_counterexample :
    c4Data.length = 2
    ∧ (editxGetPostingDetails c4Fetch c4Rand c4Data).1
        = [.request "a", .request "b"]
    ∧ sleepCount (editxGetPostingDetails c4Fetch c4Rand c4Data).1 = 0 := by
  refine ⟨rfl, rfl, rfl⟩

/-- C4 amended: provided every detail fetch succeeds and the reference
ids are pairwise distinct (so no item is skipped), a one-element
sequence gets zero delays and an N-element sequence (N > 1) exactly
N−1, each strictly between two consecutive requests — the trace is
exactly the `expectedEvents` interleaving, which starts and ends with a
request — and each within the `randint(3, 10)` bound. This holds for
both the editx/VDAB enricher and the cartiere enricher (which needs no
distinctness, having no duplicate check). A failed fetch (or a skipped
duplicate) suppresses the delay that would follow that item. -/
theorem c4_amended {δ : Type} (data : List RawEntry) (cdata : List CartEntry)
    (fetch : String → Except Unit δ) (cfetch : String → Except Unit CartDetail)
    (rand crand : Nat → Nat)
    (hids : (data.map (fun e => e.id)).Nodup)
    (hok : ∀ e ∈ data, ∃ d, fetch e.id = .ok d)
    (hcok : ∀ e ∈ cdata, ∃ d, cfetch e.url = .ok d)
    (hrand : ∀ j, 3 ≤ rand j ∧ rand j ≤ 10)
    (hcrand : ∀ j, 3 ≤ crand j ∧ crand j ≤ 10) :
    (editxGetPostingDetails fetch rand data).1
        = expectedEvents rand 0 (data.map (fun e => e.id))
    ∧ sleepCount (editxGetPostingDetails fetch rand data).1 = data.length - 1
    ∧ (∀ d, EnrichEvent.sleep d ∈ (editxGetPostingDetails fetch rand data).1 →
        3 ≤ d ∧ d ≤ 10)
    ∧ (cartAddPostingDetails cfetch crand cdata).1
        = expectedEvents crand 0 (cdata.map (fun e => e.url))
    ∧ sleepCount (cartAddPostingDetails cfetch crand cdata).1 = cdata.length - 1
    ∧ (∀ d, EnrichEvent.sleep d ∈ (cartAddPostingDetails cfetch crand cdata).1 →
        3 ≤ d ∧ d ≤ 10) := by
  have h1 : (editxGetPostingDetails fetch rand data).1
      = expectedEvents rand 0 (data.map (fun e => e.id)) :=
    enrichLoop_trace_allOk (fun e : RawEntry => e.id) fetch rand data 0 data.length 0 []
      (by simp) hids (fun e _ => rfl) hok
  have h2 : (cartAddPostingDetails cfetch crand cdata).1
      = expectedEvents crand 0 (cdata.map (fun e => e.url)) :=
    cartEnrich_trace_allOk cfetch crand cdata 0 cdata.length 0 (by simp) hcok
  refine ⟨h1, ?_, ?_, h2, ?_, ?_⟩
  · rw [h1, sleepCount_expectedEvents]
    simp
  · intro d hd
    rw [h1] at hd
    obtain ⟨j, rfl⟩ := sleep_mem_expectedEvents rand _ 0 d hd
    exact hrand j
  · rw [h2, sleepCount_expectedEvents]
    simp
  · intro d hd
    rw [h2] at hd
    obtain ⟨j, rfl⟩ := sleep_mem_expectedEvents crand _ 0 d hd
    exact hcrand j

/-- C4 witness: the amended statement at three all-successful editx
references (two delays of 7) and two all-successful cartiere references
(one delay of 4). -/
theorem c4_amended_witness :
    (editxGetPostingDetails c4wFetch c4wRand c4wData).1
        = expectedEvents c4wRand 0 (c4wData.map (fun e => e.id))
    ∧ sleepCount (editxGetPostingDetails c4wFetch c4wRand c4wData).1 = 2
    ∧ (cartAddPostingDetails c4wCFetch c4wCRand c4wCData).1
        = expectedEvents c4wCRand 0 (c4wCData.map (fun e => e.url))
    ∧ sleepCount (cartAddPostingDetails c4wCFetch c4wCRand c4wCData).1 = 1 := by
  have h := c4_amended c4wData c4wCData c4wFetch c4wCFetch c4wRand c4wCRand
    (by decide) (fun e _ => ⟨"d", rfl⟩) (fun e _ => ⟨{}, rfl⟩)
    (fun j => by simp only [c4wRand]; omega) (fun j => by simp only [c4wCRand]; omega)
  refine ⟨h.1, ?_, h.2.2.2.1, ?_⟩
  · rw [h.2.1]; decide
  · rw [h.2.2.2.2.1]; decide

/-- C5: per-item fault isolation of the detail enricher, for the editx
and VDAB variants (the same loop, keyed by `entry['id']` respectively
`entry['id']['id']`): with pairwise-distinct ids, every reference is
attempted (a request for its id appears in the trace, failures
notwithstanding), and the returned dict binds exactly the ids whose
fetch succeeded, in input order — failures are omissions, never stored
error values. -/
theorem c5_per_item_isolation {δ : Type} (data : List RawEntry) (vdata : List VdabEntry)
    (fetch vfetch : String → Except Unit δ) (rand vrand : Nat → Nat)
    (hnd : (data.map (fun e => e.id)).Nodup)
    (hvnd : (vdata.map (fun e => e.id)).Nodup) :
    (editxGetPostingDetails fetch rand data).2
        = data.filterMap (fun e =>
            match fetch e.id with
            | .ok d => some (e.id, d)
            | .error _ => none)
    ∧ (∀ e ∈ data, EnrichEvent.request e.id ∈ (editxGetPostingDetails fetch rand data).1)
    ∧ (vdabGetPostingDetails vfetch vrand vdata).2
        = vdata.filterMap (fun e =>
            match vfetch e.id with
            | .ok d => some (e.id, d)
            | .error _ => none)
    ∧ (∀ e ∈ vdata, EnrichEvent.request e.id ∈ (vdabGetPostingDetails vfetch vrand vdata).1) := by
  have h1 := enrichLoop_spec (fun e : RawEntry => e.id) fetch rand data
    0 data.length 0 [] hnd (fun e _ => rfl)
  have h2 := enrichLoop_spec (fun e : VdabEntry => e.id) vfetch vrand vdata
    0 vdata.length 0 [] hvnd (fun e _ => rfl)
  exact ⟨by simpa using h1.1, h1.2, by simpa using h2.1, h2.2⟩

/-- C5 witness: five references with only item 2 (id `p3`, counting from
0) failing — every reference is requested and the dict has exactly the 4
successful entries; similarly for the VDAB loop with `q2` failing. -/
theorem c5_witness :
    (editxGetPostingDetails c5Fetch c5Rand c5Data).2
        = [("p1", "p1"), ("p2", "p2"), ("p4", "p4"), ("p5", "p5")]
    ∧ (editxGetPostingDetails c5Fetch c5Rand c5Data).2.length = 4
    ∧ EnrichEvent.request "p3" ∈ (editxGetPostingDetails c5Fetch c5Rand c5Data).1
    ∧ EnrichEvent.request "p4" ∈ (editxGetPostingDetails c5Fetch c5Rand c5Data).1
    ∧ (vdabGetPostingDetails c5VFetch c5VRand c5VData).2
        = [("q1", "q1"), ("q3", "q3")] := by
  have h := c5_per_item_isolation c5Data c5VData c5Fetch c5VFetch c5Rand c5VRand
    (by decide) (by decide)
  refine ⟨?_, ?_, ?_, ?_, ?_⟩
  · rw [h.1]; rfl
  · rw [h.1]; rfl
  · exact h.2.1 { id := "p3" } (by decide)
  · exact h.2.1 { id := "p4" } (by decide)
  · rw [h.2.2.1]; rfl

/-- C6 counterexample: two editx listings, the first failing mid-render
(`changed.value` missing). The feed holds TWO entries — the failing
listing's partially populated entry (title `"T (C)"` set, `updated`
never set) is NOT omitted, because `fg.add_entry()` ran before the
`try` — falsifying the claim's "the failing Listing's entry is omitted
from the output feed". -/
theorem c6_counterexample :
    (editxGenerateFeed c6Data []).entries.length = 2
    ∧ (editxGenerateFeed c6Data []).entries.map (fun fe => fe.title)
        = [some "T (C)", some "G (GC)"]
    ∧ (editxGenerateFeed c6Data []).entries.map (fun fe => fe.updated)
        = [none, some none] := by
  refine ⟨rfl, rfl, rfl⟩

/-- C6 amended: a failure rendering one listing indeed does not abort
rendering of subsequent listings — each listing's entry depends only on
that listing — but the failing listing's entry is not omitted: the entry
is appended to the feed before rendering starts, so it remains,
populated with whatever fields were set before the failure. For editx,
every listing contributes exactly one entry wherever it sits; for
cartiere, any listing that passes the pre-`add_entry` filters (details
present, not FREELANCE) likewise contributes exactly its rendered —
possibly partial — entry, with its neighbours' entries unchanged. -/
theorem c6_amended :
    (∀ (details : List (String × String)) (xs ys : List RawEntry) (b : RawEntry),
      (editxGenerateFeed (xs ++ b :: ys) details).entries
        = (editxGenerateFeed xs details).entries
          ++ renderEditx details b :: (editxGenerateFeed ys details).entries)
    ∧ (∀ (xs ys : List CartEntry) (b : CartEntry) (db : CartDetail) (et : String)
        (lxs lys : List CartFeedEntry),
      b.details = some db → db.employmentType = some et → et ≠ "FREELANCE" →
      cartEntries xs = .ok lxs → cartEntries ys = .ok lys →
      cartEntries (xs ++ b :: ys) = .ok (lxs ++ renderCart b db :: lys)) := by
  constructor
  · intro details xs ys b
    simp [editxGenerateFeed]
  · intro xs
    induction xs with
    | nil =>
      intro ys b db et lxs lys hb hd hne hxs hys
      have hlxs : lxs = [] := by
        simpa [cartEntries] using hxs.symm
      subst hlxs
      simp [cartEntries, hb, hd, hne, hys]
    | cons x xs' ih =>
      intro ys b db et lxs lys hb hd hne hxs hys
      rw [List.cons_append]
      simp only [cartEntries] at hxs ⊢
      cases hxd : x.details with
      | none =>
        simp only [hxd] at hxs ⊢
        exact ih ys b db et lxs lys hb hd hne hxs hys
      | some dx =>
        simp only [hxd] at hxs ⊢
        cases hxe : dx.employmentType with
        | none =>
          simp only [hxe] at hxs
          exact absurd hxs (by simp)
        | some etx =>
          simp only [hxe] at hxs ⊢
          by_cases hfr : etx = "FREELANCE"
          · rw [if_pos hfr] at hxs ⊢
            exact ih ys b db et lxs lys hb hd hne hxs hys
          · rw [if_neg hfr] at hxs ⊢
            cases hrec : cartEntries xs' with
            | error u =>
              rw [hrec] at hxs
              simp at hxs
            | ok lx' =>
              rw [hrec] at hxs
              simp only [Except.ok.injEq] at hxs
              have hih := ih ys b db et lx' lys hb hd hne hrec hys
              rw [hih]
              simp [← hxs]

/-- C6 witness: the amended statement instantiated with a mid-failing
listing between two fully renderable ones, for both sources. -/
theorem c6_amended_witness :
    (editxGenerateFeed ([c6Good] ++ c6Bad :: [c6Good]) []).entries
      = (editxGenerateFeed [c6Good] []).entries
        ++ renderEditx [] c6Bad :: (editxGenerateFeed [c6Good] []).entries
    ∧ cartEntries ([c6wGood] ++ c6wBad :: [c6wGood])
      = .ok ([renderCart c6wGood c6wGoodDetail]
          ++ renderCart c6wBad c6wBadDetail :: [renderCart c6wGood c6wGoodDetail]) := by
  constructor
  · exact c6_amended.1 [] [c6Good] [c6Good] c6Bad
  · exact c6_amended.2 [c6wGood] [c6wGood] c6wBad c6wBadDetail "PART_TIME"
      [renderCart c6wGood c6wGoodDetail] [renderCart c6wGood c6wGoodDetail]
      rfl rfl (by decide) rfl rfl

/-- C7 counterexample: the claim's own end-to-end scenario — references
`a` (title `"Engineer"`) and `b` (title `""`), detail only for `a` —
produces a feed with TWO entries, including one for `b`, not "exactly
one entry, the one for `a`": no non-emptiness check on `id`, `url` or
`title` exists anywhere in the sources. -/
theorem c7_counterexample :
    (editxGenerateFeed c7Data c7Details).entries.length = 2
    ∧ (editxGenerateFeed c7Data c7Details).entries.map (fun fe => fe.entryId)
        = [some (editxLink "a"), some (editxLink "b")] := by
  exact ⟨rfl, rfl⟩

/-- C7 amended: the feed assembler performs no non-emptiness validation
of `id`, `url` or `title`; a listing with an empty title is rendered
rather than dropped (its title becomes `" (company)"`). In the given
scenario the emitted feed contains two entries: `a`'s and `b`'s. -/
theorem c7_amended :
    (editxGenerateFeed c7Data c7Details).entries.length = 2
    ∧ (editxGenerateFeed c7Data c7Details).entries.map (fun fe => fe.title)
        = [some "Engineer (CompA)", some " (CompB)"]
    ∧ (editxGenerateFeed c7Data c7Details).entries.map (fun fe => fe.entryId)
        = [some "https://editx.eu/en/it-jobs/a", some "https://editx.eu/en/it-jobs/b"] := by
  refine ⟨rfl, rfl, rfl⟩

/-- C8 counterexample: a listing whose address object is present but has
none of the five sub-fields: `get_address` returns `', '.join([])`, the
EMPTY STRING, not absence — falsifying the claim's "when no address
sub-field is present the location is absent (not an empty string)". -/
theorem c8_counterexample : get_address c8EmptyAddrEntry = some "" := rfl

/-- C8 amended: the derived location is the `", "`-join of the available
address sub-fields in the fixed order street, postal code, locality,
region, country, skipping missing sub-fields; when the address object
itself (or its enclosing `details`/`jobLocation`) is missing the
location is absent; but when the address object is present with no
sub-fields the location is the empty string rather than absent. -/
theorem c8_amended (e : CartEntry) :
    (∀ (d : CartDetail) (jl : JobLocationRec) (a : LdAddress),
      e.details = some d → d.jobLocation = some jl → jl.address = some a →
      get_address e = some (String.intercalate ", " (addressFields a)))
    ∧ (e.details = none → get_address e = none)
    ∧ (∀ d, e.details = some d → d.jobLocation = none → get_address e = none)
    ∧ (∀ d jl, e.details = some d → d.jobLocation = some jl → jl.address = none →
      get_address e = none) := by
  refine ⟨?_, ?_, ?_, ?_⟩
  · intro d jl a h1 h2 h3
    simp [get_address, h1, h2, h3]
  · intro h1
    simp [get_address, h1]
  · intro d h1 h2
    simp [get_address, h1, h2]
  · intro d jl h1 h2 h3
    simp [get_address, h1, h2, h3]

/-- C8 witness: three of five sub-fields present join in the fixed
order; a listing without details has no location. -/
theorem c8_amended_witness :
    get_address c8wEntry = some "Main 5, 2000, Antwerpen"
    ∧ get_address { url := "n" } = none := by
  constructor
  · have h := (c8_amended c8wEntry).1 c8wDetail { address := some c8wAddr } c8wAddr
      rfl rfl rfl
    rw [h]
    rfl
  · exact (c8_amended { url := "n" }).2.1 rfl

/-- C10 (implicit): `get_native_ts` returns `None` for EVERY input
string — the parsed value is never returned, because the function body
has no `return` on the success path — and consequently no entry of any
editx feed ever carries a real `published` or `updated` timestamp: each
such field is either never set (rendering failed earlier) or set from
`None`. -/
theorem c10_native_ts_always_none :
    (∀ s : String, get_native_ts s = none)
    ∧ ∀ (data : List RawEntry) (details : List (String × String)) (fe : EditxFeedEntry),
        fe ∈ (editxGenerateFeed data details).entries →
        (fe.published = none ∨ fe.published = some none)
        ∧ (fe.updated = none ∨ fe.updated = some none) := by
  refine ⟨get_native_ts_none, ?_⟩
  intro data details fe hfe
  simp only [editxGenerateFeed, List.mem_map] at hfe
  obtain ⟨e, _, rfl⟩ := hfe
  exact renderEditx_published details e

/-- C10 witness: a fully renderable listing with parseable timestamps
still yields `published = updated = some none` ("set from `None`"). -/
theorem c10_witness :
    get_native_ts "2026-05-06 07:08:09" = none
    ∧ ((renderEditx [] c10wEntry).published = none
        ∨ (renderEditx [] c10wEntry).published = some none)
    ∧ ((renderEditx [] c10wEntry).updated = none
        ∨ (renderEditx [] c10wEntry).updated = some none)
    ∧ (renderEditx [] c10wEntry).published = some none
    ∧ (renderEditx [] c10wEntry).updated = some none := by
  have h := c10_native_ts_always_none.2 [c10wEntry] [] (renderEditx [] c10wEntry)
    (by simp [editxGenerateFeed])
  exact ⟨c10_native_ts_always_none.1 _, h.1, h.2, rfl, rfl⟩

end VacancyRss
